import Mathlib

set_option maxRecDepth 100000

/-!
Shallow embedding of the `image-extract` service:
  * `src/image_processor.py` — `bytes_to_base64`, `process_image_to_json`
  * `src/main.py`            — the near-duplicate `process_image_to_json`
  * `src/api.py`             — the `POST /extract` handler `extract_id_data`

Python JSON-compatible values are modelled by the inductive `Json`
(`Json.null` also plays the role of the Python value `None`, exactly as
`json.loads` maps the literal `null` to `None`).  Python dicts are association
lists with in-place update on duplicate keys, matching dict semantics.
`json.loads` is modelled by an executable recursive-descent parser
`jsonLoads`.  The upstream HTTP interaction is an oracle
`env : Nat → AttemptOutcome` giving the outcome of each `requests.post`
call; sleeps and attempt counts are recorded in a `Trace`.
-/

/-- JSON / Python values: `null` doubles as Python `None`. Objects are
association lists (insertion order, no duplicate keys when produced by
the parser). -/
inductive Json where
  | null
  | bool (b : Bool)
  | num (n : Int)
  | str (s : String)
  | arr (elems : List Json)
  | obj (fields : List (String × Json))

namespace Json

/-- Python truthiness (`bool(v)`) restricted to JSON-compatible values. -/
def truthy : Json → Bool
  | .null => false
  | .bool b => b
  | .num n => n != 0
  | .str s => s != ""
  | .arr elems => !elems.isEmpty
  | .obj fields => !fields.isEmpty

/-- Model of `dict.get(key)` (no default): first binding of `key`, as the parser
and `setField` never produce duplicates. -/
def lookup : List (String × Json) → String → Option Json
  | [], _ => none
  | (k, v) :: rest, key => if k = key then some v else lookup rest key

/-- Python `d[key] = v`: update in place if present, else append. -/
def setField : List (String × Json) → String → Json → List (String × Json)
  | [], key, v => [(key, v)]
  | (k, w) :: rest, key, v =>
      if k = key then (k, v) :: rest else (k, w) :: setField rest key v

end Json

/-! ### `json.loads` — recursive-descent JSON parser (fuelled) -/

namespace PyJson

def isWs (c : Char) : Bool :=
  c = ' ' || c = '\n' || c = '\t' || c = '\r'

def skipWs : List Char → List Char
  | [] => []
  | c :: cs => if isWs c then skipWs cs else c :: cs

/-- Decode one escape character after a backslash (`\uXXXX` unsupported:
none of the payloads in this development use it). -/
def escChar (e : Char) : Option Char :=
  if e = 'n' then some '\n'
  else if e = 't' then some '\t'
  else if e = 'r' then some '\r'
  else if e = 'b' then some (Char.ofNat 8)
  else if e = 'f' then some (Char.ofNat 12)
  else if e = '"' || e = '\\' || e = '/' then some e
  else none

/-- Characters of a string literal, after the opening quote. -/
def parseStrChars (fuel : Nat) : List Char → Option (List Char × List Char) :=
  match fuel with
  | 0 => fun _ => none
  | fuel + 1 => fun input =>
    match input with
    | [] => none
    | c :: cs =>
      if c = '"' then some ([], cs)
      else if c = '\\' then
        match cs with
        | [] => none
        | e :: cs2 =>
          match escChar e with
          | none => none
          | some d =>
            match parseStrChars fuel cs2 with
            | none => none
            | some (s, rest) => some (d :: s, rest)
      else
        match parseStrChars fuel cs with
        | none => none
        | some (s, rest) => some (c :: s, rest)

def digitVal (c : Char) : Option Nat :=
  if '0' ≤ c ∧ c ≤ '9' then some (c.toNat - '0'.toNat) else none

def parseDigits (fuel : Nat) (acc : Nat) : List Char → Option (Nat × List Char) :=
  match fuel with
  | 0 => fun _ => none
  | fuel + 1 => fun input =>
    match input with
    | [] => some (acc, [])
    | c :: cs =>
      match digitVal c with
      | some d => parseDigits fuel (acc * 10 + d) cs
      | none => some (acc, c :: cs)

mutual

/-- One JSON value (integers only among numbers; enough for every body
this service exchanges). -/
def parseVal (fuel : Nat) (input : List Char) : Option (Json × List Char) :=
  match fuel with
  | 0 => none
  | fuel + 1 =>
    match skipWs input with
    | [] => none
    | c :: cs =>
      if c = 'n' then
        if ['u', 'l', 'l'].isPrefixOf cs then some (.null, cs.drop 3) else none
      else if c = 't' then
        if ['r', 'u', 'e'].isPrefixOf cs then some (.bool true, cs.drop 3) else none
      else if c = 'f' then
        if ['a', 'l', 's', 'e'].isPrefixOf cs then some (.bool false, cs.drop 4) else none
      else if c = '"' then
        match parseStrChars fuel cs with
        | none => none
        | some (s, rest) => some (.str (String.mk s), rest)
      else if c = '-' then
        match cs with
        | d :: ds =>
          match digitVal d with
          | none => none
          | some v =>
            match parseDigits fuel v ds with
            | none => none
            | some (n, rest) => some (.num (-(Int.ofNat n)), rest)
        | [] => none
      else
        match digitVal c with
        | some v =>
          match parseDigits fuel v cs with
          | none => none
          | some (n, rest) => some (.num (Int.ofNat n), rest)
        | none =>
          if c = '[' then
            match skipWs cs with
            | ']' :: rest => some (.arr [], rest)
            | other =>
              match parseArrItems fuel other with
              | none => none
              | some (elems, rest) => some (.arr elems, rest)
          else if c = '\x7b' then
            match skipWs cs with
            | '\x7d' :: rest => some (.obj [], rest)
            | other =>
              match parseObjItems fuel [] other with
              | none => none
              | some (fields, rest) => some (.obj fields, rest)
          else none

/-- Comma-separated values up to the closing `]`. -/
def parseArrItems (fuel : Nat) (input : List Char) : Option (List Json × List Char) :=
  match fuel with
  | 0 => none
  | fuel + 1 =>
    match parseVal fuel input with
    | none => none
    | some (v, rest) =>
      match skipWs rest with
      | ',' :: more =>
        match parseArrItems fuel more with
        | none => none
        | some (elems, rest2) => some (v :: elems, rest2)
      | ']' :: more => some ([v], more)
      | _ => none

/-- Comma-separated `"key": value` members up to the closing brace;
duplicate keys overwrite in place like a Python dict. -/
def parseObjItems (fuel : Nat) (acc : List (String × Json)) (input : List Char) :
    Option (List (String × Json) × List Char) :=
  match fuel with
  | 0 => none
  | fuel + 1 =>
    match skipWs input with
    | '"' :: cs =>
      match parseStrChars fuel cs with
      | none => none
      | some (k, rest) =>
        match skipWs rest with
        | ':' :: more =>
          match parseVal fuel more with
          | none => none
          | some (v, rest2) =>
            let acc2 := Json.setField acc (String.mk k) v
            match skipWs rest2 with
            | ',' :: more2 => parseObjItems fuel acc2 more2
            | '\x7d' :: more2 => some (acc2, more2)
            | _ => none
        | _ => none
    | _ => none

end

/-- Model of `json.loads`: parse the whole string, rejecting trailing garbage. -/
def jsonLoads (s : String) : Option Json :=
  match parseVal (2 * (s.length + 1)) s.toList with
  | none => none
  | some (v, rest) => if (skipWs rest).isEmpty then some v else none

end PyJson

export PyJson (jsonLoads)

/-! ### Upstream interaction model -/

/-- What a single `requests.post` call produces.  `netFail` is a
`requests.exceptions.RequestException` other than `HTTPError`
(connection error, timeout); `response` is an HTTP response with its
status code and body text (`response.raise_for_status()` raises
`HTTPError` exactly when `400 ≤ status ≤ 599`). -/
inductive AttemptOutcome where
  | netFail
  | response (status : Nat) (text : String)

/-- A Python value returned by `process_image_to_json`: either a single
JSON-compatible value (`Json.null` meaning `None`), or — in
the missing-key branch of `image_processor.py` — the pair
`({"error": ...}, 401)`. -/
inductive PyRet where
  | val (j : Json)
  | tup (j : Json) (code : Nat)

/-- Either a normal Python return or an uncaught exception escaping the
function (named by its Python class). -/
inductive RunResult where
  | ret (r : PyRet)
  | exn (e : String)

/-- Observable record of one call to `process_image_to_json`: number of
`requests.post` calls issued, the `time.sleep` durations in order, and
the outcome. -/
structure Trace where
  attempts : Nat
  sleeps : List Nat
  result : RunResult

/-- Python subscript `v[0]` on a JSON-compatible value: list indexing
(IndexError when empty), string indexing, dict subscript with the
integer key `0` (KeyError: our dicts have string keys), TypeError
otherwise. -/
def pyIndexZero : Json → RunResult ⊕ Json
  | .arr [] => .inl (.exn "IndexError")
  | .arr (x :: _) => .inr x
  | .str s =>
      match s.toList with
      | [] => .inl (.exn "IndexError")
      | c :: _ => .inr (.str (String.mk [c]))
  | .obj _ => .inl (.exn "KeyError")
  | _ => .inl (.exn "TypeError")

/-- Lines 99–108 of `src/image_processor.py` (textually identical to
lines 114–124 of `src/main.py`): what happens after
`response.raise_for_status()` passes on body `text`.

```
result = response.json()
candidate = result.get("candidates", [{}])[0]
if candidate and candidate.get("content") and candidate["content"].get("parts"):
    json_string = candidate["content"]["parts"][0]["text"]
    return json.loads(json_string)
else:
    return None
```
A `json.JSONDecodeError` from either parse is caught and yields
`return None`; any other exception (IndexError, TypeError, KeyError,
AttributeError) is uncaught. -/
def handleSuccessBody (text : String) : RunResult :=
  match jsonLoads text with
  | none => .ret (.val .null)
  | some result =>
    match result with
    | .obj fields =>
      let cands := (Json.lookup fields "candidates").getD (.arr [.obj []])
      match pyIndexZero cands with
      | .inl e => e
      | .inr candidate =>
        if !candidate.truthy then .ret (.val .null)
        else
          match candidate with
          | .obj cf =>
            let content := (Json.lookup cf "content").getD .null
            if !content.truthy then .ret (.val .null)
            else
              match content with
              | .obj contf =>
                let parts := (Json.lookup contf "parts").getD .null
                if !parts.truthy then .ret (.val .null)
                else
                  match pyIndexZero parts with
                  | .inl e => e
                  | .inr part0 =>
                    match part0 with
                    | .obj pf =>
                      match Json.lookup pf "text" with
                      | none => .exn "KeyError"
                      | some (.str json_string) =>
                        match jsonLoads json_string with
                        | some parsed => .ret (.val parsed)
                        | none => .ret (.val .null)
                      | some _ => .exn "TypeError"
                    | .str _ => .exn "TypeError"
                    | _ => .exn "TypeError"
              | _ => .exn "AttributeError"
          | _ => .exn "AttributeError"
    | _ => .exn "AttributeError"

/-- Does `status` land in the retry set `[429, 500, 503]`? -/
def retryableStatus (status : Nat) : Bool :=
  status = 429 || status = 500 || status = 503

namespace ImageProcessor

/-- The `for attempt in range(max_retries)` loop of
`src/image_processor.py` lines 90–125, unrolled on the remaining
iteration count (`remaining = max_retries - attempt`). -/
def runLoop (env : Nat → AttemptOutcome) (max_retries : Nat) :
    Nat → Nat → Trace
  | _, 0 => ⟨0, [], .ret (.val .null)⟩
  | attempt, remaining + 1 =>
    match env attempt with
    | .netFail => ⟨1, [], .ret (.val .null)⟩
    | .response status text =>
      if 400 ≤ status ∧ status ≤ 599 then
        if retryableStatus status ∧ attempt < max_retries - 1 then
          let t := runLoop env max_retries (attempt + 1) remaining
          ⟨t.attempts + 1, 2 ^ attempt :: t.sleeps, t.result⟩
        else ⟨1, [], .ret (.val .null)⟩
      else ⟨1, [], handleSuccessBody text⟩

/-- Model of `src/image_processor.py` lines 30–125.  The payload-only arguments
are kept for signature fidelity; the upstream behaviour is the oracle
`env`.  The missing-key branch is the Flask-style
`return {"error": "API Key is missing"}, 401` — a tuple. -/
def process_image_to_json (API_KEY : String)
    (image_base64 : String) (mime_type : String) (prompt : String)
    (response_schema : Json) (env : Nat → AttemptOutcome)
    (max_retries : Nat) : Trace :=
  if API_KEY = "" then
    ⟨0, [], .ret (.tup (.obj [("error", .str "API Key is missing")]) 401)⟩
  else runLoop env max_retries 0 max_retries

end ImageProcessor

namespace Main

/-- The `for attempt in range(max_retries)` loop of `src/main.py`
lines 104–144 — textually identical to the loop of `image_processor.py` apart
from `print` statements. -/
def runLoop (env : Nat → AttemptOutcome) (max_retries : Nat) :
    Nat → Nat → Trace
  | _, 0 => ⟨0, [], .ret (.val .null)⟩
  | attempt, remaining + 1 =>
    match env attempt with
    | .netFail => ⟨1, [], .ret (.val .null)⟩
    | .response status text =>
      if 400 ≤ status ∧ status ≤ 599 then
        if retryableStatus status ∧ attempt < max_retries - 1 then
          let t := runLoop env max_retries (attempt + 1) remaining
          ⟨t.attempts + 1, 2 ^ attempt :: t.sleeps, t.result⟩
        else ⟨1, [], .ret (.val .null)⟩
      else ⟨1, [], handleSuccessBody text⟩

/-- Model of `src/main.py` lines 44–144.  Unlike `image_processor.py`, the
missing-key branch is a plain `return None`. -/
def process_image_to_json (API_KEY : String)
    (image_base64 : String) (mime_type : String) (prompt : String)
    (response_schema : Json) (env : Nat → AttemptOutcome)
    (max_retries : Nat) : Trace :=
  if API_KEY = "" then ⟨0, [], .ret (.val .null)⟩
  else runLoop env max_retries 0 max_retries

end Main

/-! ### `bytes_to_base64` (`src/image_processor.py` lines 20–26) -/

/-- The standard base64 alphabet. -/
def base64Alphabet : List Char :=
  "ABCDEFGHIJKLMNOPQRSTUVWXYZabcdefghijklmnopqrstuvwxyz0123456789+/".toList

def base64Digit (n : Nat) : Char := base64Alphabet.getD n 'A'

/-- Model of `base64.b64encode` on a byte list (each byte `< 256`), producing the
padded character stream. -/
def b64encodeChars : List Nat → List Char
  | [] => []
  | [b0] =>
      [base64Digit (b0 / 4), base64Digit (b0 % 4 * 16), '=', '=']
  | [b0, b1] =>
      [base64Digit (b0 / 4), base64Digit (b0 % 4 * 16 + b1 / 16),
       base64Digit (b1 % 16 * 4), '=']
  | b0 :: b1 :: b2 :: rest =>
      base64Digit (b0 / 4) :: base64Digit (b0 % 4 * 16 + b1 / 16) ::
      base64Digit (b1 % 16 * 4 + b2 / 64) :: base64Digit (b2 % 64) ::
      b64encodeChars rest

/-- Model of `bytes_to_base64`: `base64.b64encode(image_bytes).decode("utf-8")`
(the `.decode` is the identity on the ASCII output). -/
def bytes_to_base64 (image_bytes : List Nat) : String :=
  String.mk (b64encodeChars image_bytes)

/-! ### `src/api.py` — the `POST /extract` handler -/

namespace Api

/-- The fixed response schema of `src/api.py` lines 38–50, as the JSON
value passed to the generation config. -/
def ID_CARD_SCHEMA : Json :=
  .obj [
    ("type", .str "OBJECT"),
    ("properties", .obj [
      ("Name", .obj [("type", .str "STRING"),
        ("description", .str "The full name of the person.")]),
      ("IDNumber", .obj [("type", .str "STRING"),
        ("description", .str "The national ID or driver\x27s license number.")]),
      ("DateOfBirth", .obj [("type", .str "STRING"),
        ("description", .str "The date of birth, standardized to YYYY-MM-DD format if possible.")]),
      ("IDExpiryDate", .obj [("type", .str "STRING"),
        ("description", .str "The ID card expiration date, standardized to YYYY-MM-DD format if present. Use an empty string if not found.")]),
      ("PassportNumber", .obj [("type", .str "STRING"),
        ("description", .str "The passport number. Use an empty string if not present.")]),
      ("PassportExpiryDate", .obj [("type", .str "STRING"),
        ("description", .str "The passport expiration date, standardized to YYYY-MM-DD format if present. Use an empty string if not found.")]),
      ("Occupation", .obj [("type", .str "STRING"),
        ("description", .str "The occupation or job title of the person, if listed on the ID. Use an empty string if not found.")])]),
    ("required", .arr [.str "Name", .str "IDNumber", .str "DateOfBirth"])]

/-- The fixed prompt of `src/api.py` lines 53–58. -/
def ANALYSIS_PROMPT : String :=
  "Analyze the identification document in this image. Extract the Name, ID Number, " ++
  "and Date of Birth. Also find and include the ID Expiry Date, Passport Number, " ++
  "Passport Expiry Date, and Occupation if they are present on the document. " ++
  "If a field is not present, return an empty string for that field."

/-- The observable outcome of one `POST /extract` request: a 200
response whose body is the serialized returned value, an
`HTTPException(status_code, detail)`, or an exception escaping the
handler. -/
inductive Response where
  | success (body : PyRet)
  | error (status_code : Nat) (detail : Json)
  | exn (e : String)

/-- Test for `if not mime_type or not mime_type.startswith("image/")`
(the startswith check is modelled on the character lists). -/
def mimeRejected : Option String → Bool
  | none => true
  | some mt => mt = "" || !("image/".toList.isPrefixOf mt.toList)

/-- Rendering of `mime_type` inside the 400 f-string. -/
def mimeShown : Option String → String
  | none => "None"
  | some mt => mt

/-- Model of `src/api.py` lines 61–117, `extract_id_data`.  `readOk` models
whether `await file.read()` succeeds, `content_type` the upload's
declared MIME type (`none` when absent) and `contents` the raw bytes;
`API_KEY` and `env` parameterize the call into
`ImageProcessor.process_image_to_json` (with its default
`max_retries = 5`). -/
def extract_id_data (readOk : Bool) (content_type : Option String)
    (contents : List Nat) (API_KEY : String)
    (env : Nat → AttemptOutcome) : Response :=
  if !readOk then
    .error 500 (.str "Could not read file content.")
  else if mimeRejected content_type then
    .error 400 (.str ("Invalid file type: " ++ mimeShown content_type ++
      ". Only image files are supported."))
  else
    let base64_data := bytes_to_base64 contents
    if base64_data = "" then
      .error 500 (.str "Failed to encode image data for API submission.")
    else
      let t := ImageProcessor.process_image_to_json API_KEY base64_data
        (mimeShown content_type) ANALYSIS_PROMPT ID_CARD_SCHEMA env 5
      match t.result with
      | .exn e => .exn e
      | .ret structured_result =>
        -- if isinstance(structured_result, dict) and structured_result.get('error'):
        match structured_result with
        | .val (.obj fields) =>
          match Json.lookup fields "error" with
          | some err =>
            if err.truthy then .error 401 err
            else if (Json.obj fields).truthy then .success structured_result
            else .error 503 (.str "Gemini API call failed or returned an unstructured response after multiple retries.")
          | none =>
            if (Json.obj fields).truthy then .success structured_result
            else .error 503 (.str "Gemini API call failed or returned an unstructured response after multiple retries.")
        | .val j =>
          if j.truthy then .success structured_result
          else .error 503 (.str "Gemini API call failed or returned an unstructured response after multiple retries.")
        | .tup _ _ =>
          -- a tuple is not a dict, and a non-empty tuple is truthy
          .success structured_result
end Api

/-! ### Shared concrete inputs -/

/-- Upstream oracle answering every attempt with HTTP 503. -/
def all503 : Nat → AttemptOutcome := fun _ => .response 503 ""

/-- Body text binding `candidates` to an empty array. -/
def emptyCandidatesText : String := "\x7b\"candidates\": []\x7d"

/-- Body text whose single candidate is the empty object (the
non-crashing empty-response shape: no `content`). -/
def emptyCandidateDictText : String := "\x7b\"candidates\": [\x7b\x7d]\x7d"

/-- Upstream oracle answering every attempt with HTTP 200 and an
empty-object candidate. -/
def emptyResponseEnv : Nat → AttemptOutcome :=
  fun _ => .response 200 emptyCandidateDictText

/-- The seven-field Jane Doe model output from the spec. -/
def janeText : String := "\x7b\"Name\":\"Jane Doe\",\"IDNumber\":\"X123\",\"DateOfBirth\":\"1990-01-01\",\"IDExpiryDate\":\"\",\"PassportNumber\":\"\",\"PassportExpiryDate\":\"\",\"Occupation\":\"\"\x7d"

/-- The fields of the parse of `janeText`. -/
def janeFields : List (String × Json) :=
  [("Name", .str "Jane Doe"), ("IDNumber", .str "X123"),
   ("DateOfBirth", .str "1990-01-01"), ("IDExpiryDate", .str ""),
   ("PassportNumber", .str ""), ("PassportExpiryDate", .str ""),
   ("Occupation", .str "")]

/-- The parse of `janeText`. -/
def janeObj : Json := .obj janeFields

/-- A full upstream body whose first candidate part text is `janeText`. -/
def janeBodyText : String := "\x7b\"candidates\": [\x7b\"content\": \x7b\"parts\": [\x7b\"text\": \"\x7b\\\"Name\\\":\\\"Jane Doe\\\",\\\"IDNumber\\\":\\\"X123\\\",\\\"DateOfBirth\\\":\\\"1990-01-01\\\",\\\"IDExpiryDate\\\":\\\"\\\",\\\"PassportNumber\\\":\\\"\\\",\\\"PassportExpiryDate\\\":\\\"\\\",\\\"Occupation\\\":\\\"\\\"\x7d\"\x7d]\x7d\x7d]\x7d"

/-- A full upstream body whose candidate text parses to a dict with a
truthy `error` key. -/
def errBoomBodyText : String := "\x7b\"candidates\": [\x7b\"content\": \x7b\"parts\": [\x7b\"text\": \"\x7b\\\"error\\\":\\\"boom\\\"\x7d\"\x7d]\x7d\x7d]\x7d"

/-- A second such body, used independently. -/
def errBadBodyText : String := "\x7b\"candidates\": [\x7b\"content\": \x7b\"parts\": [\x7b\"text\": \"\x7b\\\"error\\\":\\\"bad\\\"\x7d\"\x7d]\x7d\x7d]\x7d"

/-- The well-formed upstream body shape: first candidate, with content,
whose first part carries `text` = `pt`. -/
def stdBody (pt : String) : Json :=
  .obj [("candidates", .arr [.obj [("content",
    .obj [("parts", .arr [.obj [("text", .str pt)]])])]])]

/-- Truthiness of a value returned by `process_image_to_json` (a
non-empty tuple is always truthy). -/
def pyTruthy : PyRet → Bool
  | .val j => j.truthy
  | .tup _ _ => true

/-- The value of a truthy `error` key when the return is a dict holding
one — the guard of the 401 branch of `src/api.py`. -/
def dictTruthyError : PyRet → Option Json
  | .val (.obj fields) =>
      match Json.lookup fields "error" with
      | some e => if e.truthy then some e else none
      | none => none
  | _ => none

/-! ### Loop lemmas -/

/-- A retryable status is an HTTP error status. -/
theorem retryable_bounds {s : Nat} (h : retryableStatus s = true) :
    400 ≤ s ∧ s ≤ 599 := by
  have h2 : (s = 429 ∨ s = 500) ∨ s = 503 := by
    simpa [retryableStatus] using h
  omega

/-- When every attempt draws a retryable HTTP error, the loop runs all
its remaining iterations, sleeping `2 ^ k` after each failed attempt
`k` except the last, and ends in `return None`. -/
theorem runLoop_all_retryable (st : Nat → Nat) (tx : Nat → String)
    (hst : ∀ i, retryableStatus (st i) = true) (max_retries : Nat) :
    ∀ remaining attempt, attempt + remaining = max_retries →
      ImageProcessor.runLoop (fun i => .response (st i) (tx i)) max_retries attempt remaining =
        ⟨remaining, (List.range' attempt (remaining - 1)).map (fun k => 2 ^ k),
          .ret (.val .null)⟩ := by
  intro remaining
  induction remaining with
  | zero => intro attempt _; rfl
  | succ r ih =>
    intro attempt hsum
    have hb := retryable_bounds (hst attempt)
    simp only [ImageProcessor.runLoop]
    rw [if_pos hb]
    rcases r with _ | r2
    · have hlt : ¬ (attempt < max_retries - 1) := by omega
      rw [if_neg (fun hc => hlt hc.2)]
      rfl
    · have hlt : attempt < max_retries - 1 := by omega
      rw [if_pos ⟨hst attempt, hlt⟩, ih (attempt + 1) (by omega)]
      simp [List.range'_succ]

/-- Any attempt that was followed by a further attempt must have drawn
a retryable HTTP error status while attempts remained. -/
theorem runLoop_retry_evidence (env : Nat → AttemptOutcome) (max_retries : Nat) :
    ∀ remaining attempt k,
      k + 1 < (ImageProcessor.runLoop env max_retries attempt remaining).attempts →
      ∃ s t, env (attempt + k) = .response s t ∧ retryableStatus s = true ∧
        attempt + k < max_retries - 1 := by
  intro remaining
  induction remaining with
  | zero => intro attempt k h; simp [ImageProcessor.runLoop] at h
  | succ r ih =>
    intro attempt k h
    simp only [ImageProcessor.runLoop] at h
    rcases henv : env attempt with _ | ⟨s, t⟩ <;> simp only [henv] at h
    · omega
    · by_cases h1 : 400 ≤ s ∧ s ≤ 599
      · rw [if_pos h1] at h
        by_cases h2 : retryableStatus s = true ∧ attempt < max_retries - 1
        · rw [if_pos h2] at h
          rcases k with _ | k2
          · exact ⟨s, t, by simpa using henv, h2.1, by simpa using h2.2⟩
          · have h3 : k2 + 1 < (ImageProcessor.runLoop env max_retries (attempt + 1) r).attempts :=
              Nat.lt_of_succ_lt_succ h
            rcases ih (attempt + 1) k2 h3 with ⟨s2, t2, he, hr, hl⟩
            exact ⟨s2, t2, by rw [show attempt + (k2 + 1) = attempt + 1 + k2 by omega]; exact he,
              hr, by omega⟩
        · rw [if_neg h2] at h
          exact absurd (Nat.lt_one_iff.mp h) (Nat.succ_ne_zero k)
      · rw [if_neg h1] at h
        exact absurd (Nat.lt_one_iff.mp h) (Nat.succ_ne_zero k)

/-- The two retry loops — `src/image_processor.py` lines 90–125 and
`src/main.py` lines 104–144 — compute identical traces. -/
theorem runLoop_ip_eq_main (env : Nat → AttemptOutcome) (max_retries : Nat) :
    ∀ remaining attempt,
      ImageProcessor.runLoop env max_retries attempt remaining =
        Main.runLoop env max_retries attempt remaining := by
  intro remaining
  induction remaining with
  | zero => intro attempt; rfl
  | succ r ih =>
    intro attempt
    simp only [ImageProcessor.runLoop, Main.runLoop]
    rcases env attempt with _ | ⟨s, t⟩ <;> dsimp only
    by_cases h1 : 400 ≤ s ∧ s ≤ 599
    · rw [if_pos h1, if_pos h1]
      by_cases h2 : retryableStatus s = true ∧ attempt < max_retries - 1
      · rw [if_pos h2, if_pos h2, ih (attempt + 1)]
      · rw [if_neg h2, if_neg h2]
    · rw [if_neg h1, if_neg h1]

/-- On a well-formed upstream body carrying part text `pt`, the
success-path handler returns the parse of `pt`, or `None` when `pt` is
not valid JSON. -/
theorem handleSuccessBody_stdBody (bodyText pt : String)
    (h : jsonLoads bodyText = some (stdBody pt)) :
    handleSuccessBody bodyText =
      match jsonLoads pt with
      | some parsed => .ret (.val parsed)
      | none => .ret (.val .null) := by
  unfold handleSuccessBody stdBody at *
  rw [h]
  rfl

/-! ### Claims -/

/-- C1: the claim says an upstream HTTP-success response binding
`candidates` to an empty array makes `process_image_to_json` fail with
the Empty-Response (no-result) outcome rather than crash.  The code
disagrees: `result.get("candidates", [\x7b\x7d])` only defends a missing
key, so `[][0]` raises an uncaught IndexError, which also escapes the
`POST /extract` handler.  This theorem evaluates the code at the
failing input. -/
theorem claim_C1_empty_candidates_crash :
    handleSuccessBody emptyCandidatesText = .exn "IndexError" ∧
    (ImageProcessor.process_image_to_json "AIza" "aW1n" "image/jpeg"
        Api.ANALYSIS_PROMPT Api.ID_CARD_SCHEMA
        (fun _ => .response 200 emptyCandidatesText) 5).result = .exn "IndexError" ∧
    Api.extract_id_data true (some "image/jpeg") [77, 97, 110] "AIza"
        (fun _ => .response 200 emptyCandidatesText) = .exn "IndexError" :=
  ⟨rfl, rfl, rfl⟩

/-- C2: with an empty `GEMINI_API_KEY`, `process_image_to_json` does
fail immediately with the authentication value before any network
attempt (zero posts, for every upstream oracle) — but that value is the
tuple `(\x7b"error": "API Key is missing"\x7d, 401)`, which fails the
endpoint's isinstance-dict test, so `POST /extract` serves it as a 200
success body instead of the claimed 401.  This theorem evaluates the
code at the failing configuration. -/
theorem claim_C2_missing_key_not_mapped_to_401 :
    ∀ env : Nat → AttemptOutcome,
      (ImageProcessor.process_image_to_json "" "aW1n" "image/jpeg"
          Api.ANALYSIS_PROMPT Api.ID_CARD_SCHEMA env 5).attempts = 0 ∧
      (ImageProcessor.process_image_to_json "" "aW1n" "image/jpeg"
          Api.ANALYSIS_PROMPT Api.ID_CARD_SCHEMA env 5).result =
        .ret (.tup (.obj [("error", .str "API Key is missing")]) 401) ∧
      Api.extract_id_data true (some "image/jpeg") [255, 216] "" env =
        .success (.tup (.obj [("error", .str "API Key is missing")]) 401) :=
  fun _ => ⟨rfl, rfl, rfl⟩

/-- C3 counterexample: the retries-exhausted outcome is NOT
distinguishable from the empty-response outcome — both are `None`
(`main.py` behaves identically, cf. the C8 theorems). -/
theorem claim_C3_counterexample :
    (ImageProcessor.process_image_to_json "AIza" "aW1n" "image/jpeg"
        Api.ANALYSIS_PROMPT Api.ID_CARD_SCHEMA all503 5).result =
      (ImageProcessor.process_image_to_json "AIza" "aW1n" "image/jpeg"
        Api.ANALYSIS_PROMPT Api.ID_CARD_SCHEMA emptyResponseEnv 5).result :=
  rfl

/-- C3 amended: the retries-exhausted outcome (`None`) is
distinguishable from the missing-API-key outcome (the 401 tuple), but
identical to the empty-response outcome (also `None`). -/
theorem claim_C3_amended :
    (ImageProcessor.process_image_to_json "AIza" "aW1n" "image/jpeg"
        Api.ANALYSIS_PROMPT Api.ID_CARD_SCHEMA all503 5).result = .ret (.val .null) ∧
    (ImageProcessor.process_image_to_json "AIza" "aW1n" "image/jpeg"
        Api.ANALYSIS_PROMPT Api.ID_CARD_SCHEMA emptyResponseEnv 5).result = .ret (.val .null) ∧
    (ImageProcessor.process_image_to_json "" "aW1n" "image/jpeg"
        Api.ANALYSIS_PROMPT Api.ID_CARD_SCHEMA all503 5).result =
      .ret (.tup (.obj [("error", .str "API Key is missing")]) 401) ∧
    (ImageProcessor.process_image_to_json "" "aW1n" "image/jpeg"
        Api.ANALYSIS_PROMPT Api.ID_CARD_SCHEMA all503 5).result ≠
      (ImageProcessor.process_image_to_json "AIza" "aW1n" "image/jpeg"
        Api.ANALYSIS_PROMPT Api.ID_CARD_SCHEMA all503 5).result := by
  refine ⟨rfl, rfl, rfl, ?_⟩
  intro h
  have h3 : RunResult.ret (.tup (.obj [("error", .str "API Key is missing")]) 401) =
      RunResult.ret (.val .null) := h
  injection h3 with h4
  injection h4

/-- C4: when the key is configured and every attempt draws an upstream
status in \x7b429, 500, 503\x7d, the client performs exactly
`max_retries` attempts (default 5), sleeping 1, 2, 4, 8, … time units
between consecutive attempts, and then fails (returns `None`). -/
theorem claim_C4_all_retryable_exhausts
    (API_KEY image_base64 mime_type prompt : String) (response_schema : Json)
    (st : Nat → Nat) (tx : Nat → String) (max_retries : Nat)
    (hkey : API_KEY ≠ "") (hst : ∀ i, retryableStatus (st i) = true) :
    ImageProcessor.process_image_to_json API_KEY image_base64 mime_type prompt
        response_schema (fun i => .response (st i) (tx i)) max_retries =
      ⟨max_retries, (List.range' 0 (max_retries - 1)).map (fun k => 2 ^ k),
        .ret (.val .null)⟩ := by
  unfold ImageProcessor.process_image_to_json
  rw [if_neg hkey]
  exact runLoop_all_retryable st tx hst max_retries max_retries 0 (by omega)

/-- C4 witness: constant 503 at the default `max_retries = 5` gives
five attempts, delays 1, 2, 4, 8, and the `None` failure. -/
theorem claim_C4_witness :
    ("AIza" : String) ≠ "" ∧ (∀ i : Nat, retryableStatus 503 = true) ∧
    ImageProcessor.process_image_to_json "AIza" "aW1n" "image/jpeg" Api.ANALYSIS_PROMPT
        Api.ID_CARD_SCHEMA all503 5 = ⟨5, [1, 2, 4, 8], .ret (.val .null)⟩ := by
  refine ⟨by decide, fun _ => rfl, ?_⟩
  exact claim_C4_all_retryable_exhausts "AIza" "aW1n" "image/jpeg" Api.ANALYSIS_PROMPT
    Api.ID_CARD_SCHEMA (fun _ => 503) (fun _ => "") 5 (by decide) (fun _ => rfl)

/-- C5 counterexample: with the default five attempts all drawing 503,
the recorded delays are `[1, 2, 4, 8]`; the delay observed before
attempt 1 (0-indexed) is `2 ^ 0 = 1`, not `2 ^ 1` as the claim's
indexing would have it, and no delay of 16 ever occurs. -/
theorem claim_C5_counterexample :
    (ImageProcessor.process_image_to_json "AIza" "aW1n" "image/jpeg"
        Api.ANALYSIS_PROMPT Api.ID_CARD_SCHEMA all503 5).sleeps = [1, 2, 4, 8] ∧
    (ImageProcessor.process_image_to_json "AIza" "aW1n" "image/jpeg"
        Api.ANALYSIS_PROMPT Api.ID_CARD_SCHEMA all503 5).sleeps.get? 0 ≠
      some (2 ^ 1) ∧
    ¬ (16 ∈ (ImageProcessor.process_image_to_json "AIza" "aW1n" "image/jpeg"
        Api.ANALYSIS_PROMPT Api.ID_CARD_SCHEMA all503 5).sleeps) := by
  refine ⟨rfl, ?_, ?_⟩
  · intro h
    have h2 : (some 1 : Option Nat) = some 2 := h
    simp at h2
  · intro h
    have h2 : (16 : Nat) ∈ [1, 2, 4, 8] := h
    simp at h2

/-- C5 amended: the backoff delay is inserted AFTER failed attempt `k`
(0-indexed) — equivalently before attempt `k + 1` — and equals `2 ^ k`;
with the default `max_retries = 5` the observed delays are 1, 2, 4, 8
(no 16). -/
theorem claim_C5_amended
    (API_KEY image_base64 mime_type prompt : String) (response_schema : Json)
    (st : Nat → Nat) (tx : Nat → String) (max_retries k : Nat)
    (hkey : API_KEY ≠ "") (hst : ∀ i, retryableStatus (st i) = true)
    (hk : k < max_retries - 1) :
    (ImageProcessor.process_image_to_json API_KEY image_base64 mime_type prompt
        response_schema (fun i => .response (st i) (tx i)) max_retries).sleeps.get? k =
      some (2 ^ k) := by
  unfold ImageProcessor.process_image_to_json
  rw [if_neg hkey, runLoop_all_retryable st tx hst max_retries max_retries 0 (by omega)]
  show ((List.range' 0 (max_retries - 1)).map (fun k => 2 ^ k)).get? k = some (2 ^ k)
  rw [List.get?_map, List.get?_range' 0 1 hk]
  simp

/-- C5 amended witness: at the default settings the delay after failed
attempt 2 is `2 ^ 2 = 4`. -/
theorem claim_C5_witness :
    ("AIza" : String) ≠ "" ∧ (∀ i : Nat, retryableStatus 503 = true) ∧ 2 < 5 - 1 ∧
    (ImageProcessor.process_image_to_json "AIza" "aW1n" "image/jpeg"
        Api.ANALYSIS_PROMPT Api.ID_CARD_SCHEMA all503 5).sleeps.get? 2 = some 4 := by
  refine ⟨by decide, fun _ => rfl, by decide, ?_⟩
  exact claim_C5_amended "AIza" "aW1n" "image/jpeg" Api.ANALYSIS_PROMPT
    Api.ID_CARD_SCHEMA (fun _ => 503) (fun _ => "") 5 2 (by decide) (fun _ => rfl) (by decide)

/-- A first attempt that draws an HTTP-success status ends the call at
once with the success-path handler's verdict on the body text. -/
theorem process_first_success
    (API_KEY image_base64 mime_type prompt : String) (response_schema : Json)
    (env : Nat → AttemptOutcome) (max_retries : Nat) (s : Nat) (text : String)
    (hkey : API_KEY ≠ "") (hmr : 1 ≤ max_retries)
    (henv : env 0 = .response s text) (hs : ¬ (400 ≤ s ∧ s ≤ 599)) :
    ImageProcessor.process_image_to_json API_KEY image_base64 mime_type prompt
      response_schema env max_retries = ⟨1, [], handleSuccessBody text⟩ := by
  unfold ImageProcessor.process_image_to_json
  rw [if_neg hkey]
  obtain ⟨m, rfl⟩ : ∃ m, max_retries = m + 1 := ⟨max_retries - 1, by omega⟩
  simp only [ImageProcessor.runLoop, henv]
  rw [if_neg hs]

/-- C6: the client retries only on upstream status 429, 500 or 503 with
attempts remaining; a non-retryable HTTP error status, a network-level
failure, an unparseable body, and a candidate text that is not valid
JSON each end the call after exactly the one attempt that hit them,
with no sleep, returning the `None` failure. -/
theorem claim_C6_retry_policy
    (API_KEY image_base64 mime_type prompt : String) (response_schema : Json)
    (env : Nat → AttemptOutcome) (max_retries : Nat)
    (hkey : API_KEY ≠ "") (hmr : 1 ≤ max_retries) :
    (∀ s text, env 0 = .response s text → 400 ≤ s → s ≤ 599 →
      retryableStatus s = false →
      ImageProcessor.process_image_to_json API_KEY image_base64 mime_type prompt
        response_schema env max_retries = ⟨1, [], .ret (.val .null)⟩) ∧
    (env 0 = .netFail →
      ImageProcessor.process_image_to_json API_KEY image_base64 mime_type prompt
        response_schema env max_retries = ⟨1, [], .ret (.val .null)⟩) ∧
    (∀ s text, env 0 = .response s text → ¬ (400 ≤ s ∧ s ≤ 599) →
      jsonLoads text = none →
      ImageProcessor.process_image_to_json API_KEY image_base64 mime_type prompt
        response_schema env max_retries = ⟨1, [], .ret (.val .null)⟩) ∧
    (∀ s text pt, env 0 = .response s text → ¬ (400 ≤ s ∧ s ≤ 599) →
      jsonLoads text = some (stdBody pt) → jsonLoads pt = none →
      ImageProcessor.process_image_to_json API_KEY image_base64 mime_type prompt
        response_schema env max_retries = ⟨1, [], .ret (.val .null)⟩) ∧
    (∀ k, k + 1 < (ImageProcessor.process_image_to_json API_KEY image_base64 mime_type
        prompt response_schema env max_retries).attempts →
      ∃ s text, env k = .response s text ∧ retryableStatus s = true ∧
        k < max_retries - 1) := by
  obtain ⟨m, rfl⟩ : ∃ m, max_retries = m + 1 := ⟨max_retries - 1, by omega⟩
  unfold ImageProcessor.process_image_to_json
  rw [if_neg hkey]
  refine ⟨?_, ?_, ?_, ?_, ?_⟩
  · intro s text henv h4 h5 hnr
    simp only [ImageProcessor.runLoop, henv]
    rw [if_pos ⟨h4, h5⟩]
    simp [hnr]
  · intro henv
    simp only [ImageProcessor.runLoop, henv]
  · intro s text henv hs hparse
    simp only [ImageProcessor.runLoop, henv]
    rw [if_neg hs]
    unfold handleSuccessBody
    rw [hparse]
  · intro s text pt henv hs hbody hpt
    simp only [ImageProcessor.runLoop, henv]
    rw [if_neg hs, handleSuccessBody_stdBody text pt hbody, hpt]
  · intro k hk
    have h := runLoop_retry_evidence env (m + 1) (m + 1) 0 k hk
    simpa using h

/-- C6 witness: a single upstream 404 ends the call after one attempt
with no sleep and the `None` failure. -/
theorem claim_C6_witness :
    ("AIza" : String) ≠ "" ∧ (1 : Nat) ≤ 5 ∧
    ImageProcessor.process_image_to_json "AIza" "aW1n" "image/jpeg" Api.ANALYSIS_PROMPT
        Api.ID_CARD_SCHEMA (fun _ => .response 404 "x") 5 = ⟨1, [], .ret (.val .null)⟩ := by
  refine ⟨by decide, by decide, ?_⟩
  exact (claim_C6_retry_policy "AIza" "aW1n" "image/jpeg" Api.ANALYSIS_PROMPT
    Api.ID_CARD_SCHEMA (fun _ => .response 404 "x") 5 (by decide) (by decide)).1
    404 "x" rfl (by decide) (by decide) (by decide)

/-- C7 counterexample: an upstream success whose candidate text is the
valid JSON object `\x7b"error":"boom"\x7d` makes `extract` return
exactly that parsed object — yet `POST /extract` answers 401, not 200,
because the endpoint re-reads a truthy `error` key out of the parsed
model output. -/
theorem claim_C7_counterexample :
    (ImageProcessor.process_image_to_json "AIza" "aW1n" "image/jpeg"
        Api.ANALYSIS_PROMPT Api.ID_CARD_SCHEMA
        (fun _ => .response 200 errBoomBodyText) 5).result =
      .ret (.val (.obj [("error", .str "boom")])) ∧
    Api.extract_id_data true (some "image/jpeg") [77, 97, 110] "AIza"
        (fun _ => .response 200 errBoomBodyText) = .error 401 (.str "boom") :=
  ⟨rfl, rfl⟩

/-- C7 amended: on an upstream success whose first candidate's first
part text parses to a JSON object, `extract` returns exactly that
parsed object; `POST /extract` answers 200 with that object unmodified
provided the object is non-empty and carries no truthy `error` key
(as in the Jane Doe example); otherwise the endpoint remaps it. -/
theorem claim_C7_amended
    (API_KEY ct : String) (contents : List Nat) (env : Nat → AttemptOutcome)
    (bodyText pt : String) (o : List (String × Json))
    (hkey : API_KEY ≠ "")
    (hct : Api.mimeRejected (some ct) = false)
    (hb64 : ¬ (bytes_to_base64 contents = ""))
    (henv : env 0 = .response 200 bodyText)
    (hbody : jsonLoads bodyText = some (stdBody pt))
    (hpt : jsonLoads pt = some (.obj o))
    (htruthy : (Json.obj o).truthy = true)
    (herr : ((Json.lookup o "error").getD .null).truthy = false) :
    (ImageProcessor.process_image_to_json API_KEY (bytes_to_base64 contents)
        (Api.mimeShown (some ct)) Api.ANALYSIS_PROMPT Api.ID_CARD_SCHEMA env 5).result =
      .ret (.val (.obj o)) ∧
    Api.extract_id_data true (some ct) contents API_KEY env =
      .success (.val (.obj o)) := by
  have hres := process_first_success API_KEY (bytes_to_base64 contents)
    (Api.mimeShown (some ct)) Api.ANALYSIS_PROMPT Api.ID_CARD_SCHEMA env 5 200 bodyText
    hkey (by omega) henv (by omega)
  rw [handleSuccessBody_stdBody bodyText pt hbody, hpt] at hres
  constructor
  · rw [hres]
  · unfold Api.extract_id_data
    rw [hct]
    simp only [Bool.not_true, Bool.false_eq_true, if_false]
    rw [if_neg hb64, hres]
    rcases hcase : Json.lookup o "error" with _ | e
    · simp [hcase, htruthy]
    · have he : e.truthy = false := by simpa [hcase] using herr
      simp [hcase, he, htruthy]

/-- C7 witness: the Jane Doe body yields the parsed seven-field object
and a 200 response carrying exactly it. -/
theorem claim_C7_witness :
    ("AIza" : String) ≠ "" ∧ Api.mimeRejected (some "image/jpeg") = false ∧
    ¬ (bytes_to_base64 [77, 97, 110] = "") ∧
    jsonLoads janeBodyText = some (stdBody janeText) ∧
    jsonLoads janeText = some (.obj janeFields) ∧
    Api.extract_id_data true (some "image/jpeg") [77, 97, 110] "AIza"
        (fun _ => .response 200 janeBodyText) = .success (.val janeObj) := by
  refine ⟨by decide, rfl, by decide, rfl, rfl, ?_⟩
  exact (claim_C7_amended "AIza" "image/jpeg" [77, 97, 110]
    (fun _ => .response 200 janeBodyText) janeBodyText janeText janeFields
    (by decide) rfl (by decide) rfl rfl rfl rfl rfl).2

/-- C8 counterexample: NEITHER implementation distinguishes the
empty-candidates outcome from the exhausted-retries outcome — both
return `None` for both — so no near-duplicate distinguishes these two
cases via an HTTP status (the HTTP-status-bearing value of
`image_processor.py` concerns the missing-key case instead). -/
theorem claim_C8_counterexample :
    (ImageProcessor.process_image_to_json "AIza" "aW1n" "image/jpeg"
        Api.ANALYSIS_PROMPT Api.ID_CARD_SCHEMA emptyResponseEnv 5).result =
      (ImageProcessor.process_image_to_json "AIza" "aW1n" "image/jpeg"
        Api.ANALYSIS_PROMPT Api.ID_CARD_SCHEMA all503 5).result ∧
    (Main.process_image_to_json "AIza" "aW1n" "image/jpeg"
        Api.ANALYSIS_PROMPT Api.ID_CARD_SCHEMA emptyResponseEnv 5).result =
      (Main.process_image_to_json "AIza" "aW1n" "image/jpeg"
        Api.ANALYSIS_PROMPT Api.ID_CARD_SCHEMA all503 5).result :=
  ⟨rfl, rfl⟩

/-- C8 amended: the two near-duplicates agree on every input with a
configured key, and differ exactly on the missing-key outcome, where
`main.py` returns `None` and `image_processor.py` returns the
`(\x7b"error": ...\x7d, 401)` tuple. -/
theorem claim_C8_amended
    (API_KEY image_base64 mime_type prompt : String) (response_schema : Json)
    (env : Nat → AttemptOutcome) (max_retries : Nat) :
    (API_KEY ≠ "" →
      ImageProcessor.process_image_to_json API_KEY image_base64 mime_type prompt
          response_schema env max_retries =
        Main.process_image_to_json API_KEY image_base64 mime_type prompt
          response_schema env max_retries) ∧
    Main.process_image_to_json "" image_base64 mime_type prompt response_schema env
        max_retries = ⟨0, [], .ret (.val .null)⟩ ∧
    ImageProcessor.process_image_to_json "" image_base64 mime_type prompt
        response_schema env max_retries =
      ⟨0, [], .ret (.tup (.obj [("error", .str "API Key is missing")]) 401)⟩ ∧
    ImageProcessor.process_image_to_json "" image_base64 mime_type prompt
        response_schema env max_retries ≠
      Main.process_image_to_json "" image_base64 mime_type prompt response_schema env
        max_retries := by
  refine ⟨?_, rfl, rfl, ?_⟩
  · intro hkey
    unfold ImageProcessor.process_image_to_json Main.process_image_to_json
    rw [if_neg hkey, if_neg hkey]
    exact runLoop_ip_eq_main env max_retries max_retries 0
  · intro h
    have h2 : Trace.mk 0 []
        (.ret (.tup (.obj [("error", .str "API Key is missing")]) 401)) =
        Trace.mk 0 [] (.ret (.val .null)) := h
    have h3 := congrArg Trace.result h2
    injection h3 with h4
    injection h4

/-- C8 witness: with a configured key the two implementations produce
the same trace on the all-503 oracle. -/
theorem claim_C8_witness :
    ("AIza" : String) ≠ "" ∧
    ImageProcessor.process_image_to_json "AIza" "aW1n" "image/jpeg"
        Api.ANALYSIS_PROMPT Api.ID_CARD_SCHEMA all503 5 =
      Main.process_image_to_json "AIza" "aW1n" "image/jpeg"
        Api.ANALYSIS_PROMPT Api.ID_CARD_SCHEMA all503 5 :=
  ⟨by decide, (claim_C8_amended "AIza" "aW1n" "image/jpeg" Api.ANALYSIS_PROMPT
    Api.ID_CARD_SCHEMA all503 5).1 (by decide)⟩

/-- C9 counterexample: `POST /extract` can answer 200 with a value that
is not a dict at all — the missing-key tuple is truthy and fails the
isinstance-dict check, so it is served as a success body. -/
theorem claim_C9_counterexample :
    Api.extract_id_data true (some "image/png") [77] "" all503 =
      .success (.tup (.obj [("error", .str "API Key is missing")]) 401) ∧
    dictTruthyError (.tup (.obj [("error", .str "API Key is missing")]) 401) = none ∧
    ∀ j : Json, PyRet.tup (.obj [("error", .str "API Key is missing")]) 401 ≠ .val j :=
  ⟨rfl, rfl, fun _ h => PyRet.noConfusion h⟩

/-- C9 amended: `POST /extract` answers 200 with the returned value
exactly when that value is truthy and is not a dict with a truthy
`error` key; every returned dict whose `error` key is truthy — a
successfully parsed model output included — is answered 401 with that
error value as the detail. -/
theorem claim_C9_amended (ct : String) (contents : List Nat) (API_KEY : String)
    (env : Nat → AttemptOutcome) (r : PyRet)
    (hct : Api.mimeRejected (some ct) = false)
    (hb64 : ¬ (bytes_to_base64 contents = ""))
    (hres : (ImageProcessor.process_image_to_json API_KEY (bytes_to_base64 contents)
        (Api.mimeShown (some ct)) Api.ANALYSIS_PROMPT Api.ID_CARD_SCHEMA env 5).result =
      .ret r) :
    (Api.extract_id_data true (some ct) contents API_KEY env = .success r ↔
      dictTruthyError r = none ∧ pyTruthy r = true) ∧
    (∀ e, dictTruthyError r = some e →
      Api.extract_id_data true (some ct) contents API_KEY env = .error 401 e) := by
  unfold Api.extract_id_data
  rw [hct]
  simp only [Bool.not_true, Bool.false_eq_true, if_false]
  rw [if_neg hb64, hres]
  rcases r with j | ⟨j, c⟩
  · rcases j with _ | b | n | s | elems | fields
    · simp [dictTruthyError, pyTruthy, Json.truthy]
    · rcases b with _ | _ <;> simp [dictTruthyError, pyTruthy, Json.truthy]
    · by_cases hn : n = 0 <;> simp [dictTruthyError, pyTruthy, Json.truthy, hn]
    · by_cases hs : s = "" <;> simp [dictTruthyError, pyTruthy, Json.truthy, hs]
    · rcases elems with _ | ⟨x, xs⟩ <;> simp [dictTruthyError, pyTruthy, Json.truthy]
    · rcases hcase : Json.lookup fields "error" with _ | e
      · rcases fields with _ | ⟨f, fs⟩ <;>
          simp [dictTruthyError, pyTruthy, Json.truthy, hcase]
      · by_cases he : e.truthy = true
        · simp [dictTruthyError, pyTruthy, hcase, he]
        · have hf : fields ≠ [] := by
            intro hnil
            rw [hnil] at hcase
            exact Option.noConfusion hcase
          simp [dictTruthyError, pyTruthy, Json.truthy, hcase, he, hf]
  · simp [dictTruthyError, pyTruthy]

/-- C9 witness: a parsed model output `\x7b"error":"bad"\x7d` is a
truthy dict with a truthy `error` key, and the endpoint answers 401
with detail `"bad"`. -/
theorem claim_C9_witness :
    Api.mimeRejected (some "image/jpeg") = false ∧
    ¬ (bytes_to_base64 [77, 97, 110] = "") ∧
    dictTruthyError (.val (.obj [("error", .str "bad")])) = some (.str "bad") ∧
    Api.extract_id_data true (some "image/jpeg") [77, 97, 110] "AIza"
        (fun _ => .response 200 errBadBodyText) = .error 401 (.str "bad") := by
  refine ⟨rfl, by decide, rfl, ?_⟩
  exact (claim_C9_amended "image/jpeg" [77, 97, 110] "AIza"
    (fun _ => .response 200 errBadBodyText) (.val (.obj [("error", .str "bad")]))
    rfl (by decide) rfl).2 (.str "bad") rfl

/-- C10: a zero-byte upload with an image content type encodes to the
empty base64 string, so `POST /extract` answers 500 (failed to encode)
identically for every key and upstream oracle — the external API is
never contacted. -/
theorem claim_C10_empty_upload_500 (ct : String)
    (hct : ("image/".toList.isPrefixOf ct.toList) = true) :
    bytes_to_base64 [] = "" ∧
    ∀ (API_KEY : String) (env : Nat → AttemptOutcome),
      Api.extract_id_data true (some ct) [] API_KEY env =
        .error 500 (.str "Failed to encode image data for API submission.") := by
  refine ⟨rfl, ?_⟩
  intro API_KEY env
  have hne : ct ≠ "" := by
    intro h
    rw [h] at hct
    exact Bool.noConfusion hct
  have hmime : Api.mimeRejected (some ct) = false := by
    simp only [Api.mimeRejected]
    rw [hct]
    simp [hne]
  unfold Api.extract_id_data
  rw [hmime]
  simp only [Bool.not_true, Bool.false_eq_true, if_false]
  rw [if_pos (show bytes_to_base64 [] = "" from rfl)]

/-- C10 witness: the concrete zero-byte JPEG upload. -/
theorem claim_C10_witness :
    ("image/".toList.isPrefixOf "image/jpeg".toList) = true ∧
    bytes_to_base64 [] = "" ∧
    Api.extract_id_data true (some "image/jpeg") [] "AIza" all503 =
      .error 500 (.str "Failed to encode image data for API submission.") :=
  ⟨by decide, (claim_C10_empty_upload_500 "image/jpeg" (by decide)).1,
    (claim_C10_empty_upload_500 "image/jpeg" (by decide)).2 "AIza" all503⟩
